import Mathlib

/-!
Verification of the authorization core of the hoiku-app childcare-staff
application: the request-interception middleware (route classification,
session validation, redirect decisions, `src/middleware.ts`), the Session
Context sign-out operation (`src/lib/auth.tsx`), and the permission-scoped
data-access layer (`src/lib/database.ts`). Each operation is embedded as a
pure function over explicit inputs: the remote Identity Service outcomes and
the backing-store state are passed in, and the cookie/store side effects are
returned as part of the result.
-/

/- ===================== String helpers ===================== -/

/-- Boolean prefix test on strings (`String.prototype.startsWith`), computed
over the character lists. -/
def strHasPre (pre s : String) : Bool :=
  pre.data.isPrefixOf s.data

/-- Boolean substring test (`String.prototype.includes`), computed over the
character lists. -/
def strContains (s sub : String) : Bool :=
  decide (sub.data <:+: s.data)

/-- JavaScript truthiness of an optional string: absent, null and the empty
string are falsy. -/
def strTruthy (o : Option String) : Bool :=
  !(o.getD "" == "")

/-- JavaScript truthiness of an optional number: absent, null and zero are
falsy. -/
def intTruthy (o : Option Int) : Bool :=
  !(o.getD 0 == 0)

/- ===================== Route classification (src/middleware.ts) ===================== -/

/-- Embeds the Protected route table of `src/middleware.ts` (line 10). -/
def protectedRoutes : List String :=
  ["/dashboard", "/email", "/diary", "/records"]

/-- Embeds the Public route table of `src/middleware.ts` (line 13). -/
def publicRoutes : List String :=
  ["/", "/login", "/register", "/auth"]

/-- Embeds the auth-route table of `src/middleware.ts` (line 16): routes that
should redirect already-authenticated users. -/
def authRoutes : List String :=
  ["/login", "/register"]

/-- Embeds `isProtectedRoute` of `src/middleware.ts` (lines 21-23): plain
prefix match against the protected table. -/
def isProtectedRoute (pathname : String) : Bool :=
  protectedRoutes.any (fun route => strHasPre route pathname)

/-- Embeds `isPublicRoute` of `src/middleware.ts` (lines 28-35): the root
entry matches only by exact equality, the others by prefix. -/
def isPublicRoute (pathname : String) : Bool :=
  publicRoutes.any (fun route =>
    if route = "/" then pathname = "/" else strHasPre route pathname)

/-- Embeds `isAuthRoute` of `src/middleware.ts` (lines 40-42). -/
def isAuthRoute (pathname : String) : Bool :=
  authRoutes.any (fun route => strHasPre route pathname)

/-- Embeds the static/API bypass of `src/middleware.ts` (lines 144-151): the
middleware returns immediately for paths starting with an internal or API
prefix, containing a dot, or naming the favicon. -/
def isBypassed (pathname : String) : Bool :=
  strHasPre "/_next/" pathname || strHasPre "/api/" pathname ||
    strContains pathname "." || strHasPre "/favicon.ico" pathname

/- ===================== Session validation (src/middleware.ts) ===================== -/

/-- Identity of the user a session resolves to (only the authorization key is
relevant to the middleware). -/
structure SUser where
  id : String
deriving DecidableEq

/-- Session record resolved from the Identity Service: the associated user
(absent for a referentially broken token; `session.user` is falsy) and the
optional absolute expiry instant `expires_at` in seconds. -/
structure Session where
  user : Option SUser
  expiresAt : Option Int
deriving DecidableEq

/-- Outcome of `supabase.auth.getSession()` inside the middleware: an error
(which also models an exception caught by the inner try/catch, lines 95-98
and 131-134), or a resolved session that may be absent. -/
inductive RemoteSession where
  | err
  | ok (s : Option Session)
deriving DecidableEq

/-- Inputs of one middleware evaluation: what the Identity Service returns
for `getSession`, what `refreshSession` would return (`none` models a refresh
error or a refresh yielding no session, line 115), and the current time in
seconds. -/
structure SessionEnv where
  remote : RemoteSession
  refreshResult : Option Session
  now : Int
deriving DecidableEq

/-- The expiration buffer of `src/middleware.ts` (line 107): 5 minutes in
seconds. -/
def expirationBuffer : Int := 300

/-- The refresh condition of `src/middleware.ts` (line 109):
`session.expires_at && session.expires_at < (now + expirationBuffer)`. -/
def refreshDue (s : Session) (now : Int) : Bool :=
  intTruthy s.expiresAt && decide (s.expiresAt.getD 0 < now + expirationBuffer)

/-- Result of `getSession` of `src/middleware.ts`: the session (or null) and
the `needsCleanup` flag, plus bookkeeping of whether `refreshSession` was
called (the function's only remote side effect, recorded for the idempotence
claim; it is not part of the code's return value). -/
structure GetSessionOut where
  session : Option Session
  needsCleanup : Bool
  refreshAttempted : Bool
deriving DecidableEq

/-- Embeds `getSession` of `src/middleware.ts` (lines 61-135): a service
error flags cleanup; no session returns early without cleanup; a session
within the expiration buffer triggers a refresh whose failure flags cleanup
and whose success is returned directly — without the user check; otherwise a
session with no user flags cleanup (corrupt session) and a session with a
user is returned as is. -/
def getSession (env : SessionEnv) : GetSessionOut :=
  match env.remote with
  | .err => ⟨none, true, false⟩
  | .ok none => ⟨none, false, false⟩
  | .ok (some s) =>
    if refreshDue s env.now then
      match env.refreshResult with
      | none => ⟨none, true, true⟩
      | some s2 => ⟨some s2, false, true⟩
    else if s.user.isNone then ⟨none, true, false⟩
    else ⟨some s, false, false⟩

/- ===================== Middleware decision (src/middleware.ts) ===================== -/

/-- Embeds `createRedirect` of `src/middleware.ts` (lines 47-56): the target
url together with the `redirect` query parameter, which is set to the
intended destination exactly when a destination is given, truthy, and not the
root path. -/
def createRedirect (url : String) (destination : Option String) :
    String × Option String :=
  if strTruthy destination && !(destination.getD "" == "/") then
    (url, some (destination.getD ""))
  else (url, none)

/-- Response of one middleware evaluation: a redirect (url and optional
`redirect` query parameter) or a pass-through continuation (`none`), together
with whether the two `sb-*-token` cookies were deleted. -/
structure GatewayResponse where
  redirectTo : Option (String × Option String)
  tokensCleared : Bool
deriving DecidableEq

/-- Embeds `middleware` of `src/middleware.ts` (lines 140-213). Bypassed
paths pass through untouched. `internalError` models an exception escaping
into the outer catch block (lines 202-212), which redirects protected paths
to login — deleting no cookies — and passes everything else through.
Otherwise: if `getSession` flagged cleanup and no session survived, the two
token cookies are deleted and the request is redirected to login (protected
path, destination preserved) or continued; then protected paths redirect
anonymous callers to login and allow authenticated ones; then an
authenticated caller on an auth route is redirected to the dashboard; public
and unmatched paths continue (lines 195-200). -/
def middleware (pathname : String) (env : SessionEnv) (internalError : Bool) :
    GatewayResponse :=
  if isBypassed pathname then ⟨none, false⟩
  else if internalError then
    if isProtectedRoute pathname then
      ⟨some (createRedirect "/login" (some pathname)), false⟩
    else ⟨none, false⟩
  else
    let out := getSession env
    let isAuthenticated := out.session.isSome
    if out.needsCleanup && !isAuthenticated then
      if isProtectedRoute pathname then
        ⟨some (createRedirect "/login" (some pathname)), true⟩
      else ⟨none, true⟩
    else if isProtectedRoute pathname then
      if !isAuthenticated then
        ⟨some (createRedirect "/login" (some pathname)), false⟩
      else ⟨none, false⟩
    else if isAuthRoute pathname && isAuthenticated then
      ⟨some (createRedirect "/dashboard" none), false⟩
    else ⟨none, false⟩

/-- User id carried by an optional session, if any. -/
def sessionUserId (o : Option Session) : Option String :=
  (o.bind (fun s => s.user)).map (fun u => u.id)

/- ===================== Session Context sign-out (src/lib/auth.tsx) ===================== -/

/-- Error value returned or thrown by the remote Identity Service call
(`AuthError | Error` in `src/lib/auth.tsx`): a message and an optional
numeric status. -/
structure RemoteErr where
  message : String
  status : Option Nat
deriving DecidableEq

/-- Response of a Session Context operation (`AuthResponse` in
`src/types/auth.ts`): success, or a failure carrying message and code. -/
inductive AuthRespM where
  | ok
  | err (message : String) (code : String)
deriving DecidableEq

/-- Embeds `handleAuthError` of `src/lib/auth.tsx` (lines 61-94): maps
provider-specific error wording onto the fixed AuthError code set, falling
back to the raw message and the numeric status (or `unknown_error`). -/
def handleAuthError (e : RemoteErr) : AuthRespM :=
  let code := match e.status with
    | some n => toString n
    | none => "unknown_error"
  if strContains e.message "Invalid login credentials" then
    .err "Invalid email or password" "invalid_credentials"
  else if strContains e.message "User already registered" then
    .err "An account with this email already exists" "user_exists"
  else if strContains e.message "Password should be" then
    .err "Password must be at least 6 characters long" "weak_password"
  else if strContains e.message "Email not confirmed" then
    .err "Please check your email and click the confirmation link" "email_not_confirmed"
  else .err e.message code

/-- In-process client auth state of the AuthProvider (`src/lib/auth.tsx`):
the `user` and `session` React state (as the identifiers they carry) together
with the two authentication cookies (`sb-access-token`, `sb-refresh-token`;
`none` means cleared/expired) and the `loading` flag. -/
structure ClientAuthState where
  user : Option String
  session : Option String
  accessCookie : Option String
  refreshCookie : Option String
  loading : Bool
deriving DecidableEq

/-- Embeds `signOut` of `src/lib/auth.tsx` (lines 229-255). `remote` is the
outcome of `supabase.auth.signOut()`: `some e` models both a returned error
object and a thrown exception (both reach `handleAuthError` and return
without touching user, session or cookies); `none` models success, after
which local state is cleared, both token cookies are expired, and the `finally`
block resets `loading`. -/
def signOut (st : ClientAuthState) (remote : Option RemoteErr) :
    ClientAuthState × AuthRespM :=
  match remote with
  | some e => ({ st with loading := false }, handleAuthError e)
  | none =>
    (⟨none, none, none, none, false⟩, .ok)

/- ===================== Data-access layer (src/lib/database.ts) ===================== -/

/-- Error taxonomy of `src/lib/database.ts`: `DatabaseError` (validation and
storage failures, distinguished by message), `AuthenticationError`, and
`PermissionError`. -/
inductive DBError where
  | databaseError (message : String)
  | authenticationError
  | permissionError
deriving DecidableEq

/-- Row of the `users` table (the fields the verified operations read). -/
structure DBUser where
  id : String
  name : String
  assignedClass : Option String
  updatedAt : Nat
deriving DecidableEq

/-- Row of the `children` table (the fields the verified operations read). -/
structure Child where
  id : String
  name : String
  classId : String
deriving DecidableEq

/-- Input of `saveGenerationHistory` (`GenerationHistoryInsert` in
`src/lib/database.ts`). -/
structure GenerationHistoryInsert where
  userId : String
  type : String
  input : String
  output : String
deriving DecidableEq

/-- Persisted generation-history row, with the server-generated id and the
stamped timestamps. -/
structure GenerationHistoryRow where
  id : Nat
  userId : String
  type : String
  input : String
  output : String
  createdAt : Nat
  updatedAt : Nat
deriving DecidableEq

/-- Backing store state: the tables, a counter for server-generated ids, and
a flag injecting a transport/storage failure into the underlying queries. -/
structure DB where
  users : List DBUser
  children : List Child
  history : List GenerationHistoryRow
  nextId : Nat
  storageError : Bool
deriving DecidableEq

/-- Caller returned by `getCurrentUser` of `src/lib/supabase.ts` (only the
authorization key is relevant). -/
structure CurrentUser where
  id : String
deriving DecidableEq

/-- The fixed class value set of `updateUserProfile`
(`src/lib/database.ts` line 173). -/
def validClasses : List String := ["koala", "bear", "giraffe"]

/-- The fixed generation type set of `saveGenerationHistory`
(`src/lib/database.ts` line 355). -/
def validTypes : List String := ["email", "diary", "record"]

/-- Embeds `getUserProfile` of `src/lib/database.ts` (lines 88-129): an empty
id is a validation error; no authenticated caller is an authentication error;
a failed query is a storage `DatabaseError`; a query returning no row
(`PGRST116`) is an ordinary `none` result; otherwise the row is returned.
Ids are unique in the `users` table, so `.single()` is the first match. -/
def getUserProfile (current : Option CurrentUser) (db : DB) (userId : String) :
    Except DBError (Option DBUser) :=
  if userId = "" then .error (.databaseError "有効なユーザーIDが必要です")
  else
    match current with
    | none => .error .authenticationError
    | some _ =>
      if db.storageError then
        .error (.databaseError "ユーザープロファイルの取得に失敗しました")
      else .ok (db.users.find? (fun u => u.id == userId))

/-- Patch accepted by `updateUserProfile` (`UserProfileUpdate` in
`src/lib/database.ts`), restricted to the mutable fields the verified claims
exercise; `none` means the key is absent from the patch. -/
structure UserProfileUpdate where
  name : Option String
  assignedClass : Option String
deriving DecidableEq

/-- True when the patch object has no keys (`Object.keys(updates).length === 0`). -/
def UserProfileUpdate.isEmptyPatch (u : UserProfileUpdate) : Bool :=
  u.name.isNone && u.assignedClass.isNone

/-- The `assigned_class` validation of `updateUserProfile` (lines 172-179):
the check fires only when the key is present and truthy, and rejects values
outside the fixed class set. -/
def patchClassInvalid (u : UserProfileUpdate) : Bool :=
  match u.assignedClass with
  | some c => !(c == "") && !(validClasses.contains c)
  | none => false

/-- Spread-application of the patch over the stored row, with `updated_at`
stamped to now (`src/lib/database.ts` lines 184-187). -/
def applyUserUpdates (row : DBUser) (u : UserProfileUpdate) (now : Nat) : DBUser :=
  { id := row.id
    name := u.name.getD row.name
    assignedClass := match u.assignedClass with
      | some c => some c
      | none => row.assignedClass
    updatedAt := now }

/-- Embeds `updateUserProfile` of `src/lib/database.ts` (lines 145-211), in
the source's check order: id validation, non-empty patch, authentication,
self-only permission, `assigned_class` validation, then the write. A write
matching no row makes `.single()` fail, surfaced as a storage
`DatabaseError`. Returns the operation result and the resulting store. -/
def updateUserProfile (current : Option CurrentUser) (db : DB) (userId : String)
    (updates : UserProfileUpdate) (now : Nat) : Except DBError DBUser × DB :=
  if userId = "" then (.error (.databaseError "有効なユーザーIDが必要です"), db)
  else if updates.isEmptyPatch then
    (.error (.databaseError "更新するデータが必要です"), db)
  else
    match current with
    | none => (.error .authenticationError, db)
    | some cu =>
      if !(cu.id == userId) then (.error .permissionError, db)
      else if patchClassInvalid updates then
        (.error (.databaseError "無効なクラス指定です。有効な値: koala, bear, giraffe"), db)
      else if db.storageError then
        (.error (.databaseError "ユーザープロファイルの更新に失敗しました"), db)
      else
        match db.users.find? (fun u => u.id == userId) with
        | none => (.error (.databaseError "ユーザープロファイルの更新に失敗しました"), db)
        | some row =>
          let updated := applyUserUpdates row updates now
          (.ok updated,
           { db with users := db.users.map (fun r => if r.id == userId then updated else r) })

/-- Decidable equality of `Except` values, by cases on the constructors. -/
instance exceptDecEq {ε α : Type} [DecidableEq ε] [DecidableEq α] :
    DecidableEq (Except ε α) := fun a b =>
  match a, b with
  | .error e₁, .error e₂ =>
    if h : e₁ = e₂ then isTrue (h ▸ rfl) else isFalse (fun he => h (by cases he; rfl))
  | .error _, .ok _ => isFalse (fun h => Except.noConfusion h)
  | .ok _, .error _ => isFalse (fun h => Except.noConfusion h)
  | .ok a₁, .ok a₂ =>
    if h : a₁ = a₂ then isTrue (h ▸ rfl) else isFalse (fun he => h (by cases he; rfl))

/-- Result of `getChildren`: the operation outcome together with whether the
query against the `children` store was actually executed (the permission
check throws before the built query is awaited). -/
structure ChildrenOut where
  result : Except DBError (List Child)
  childrenReadIssued : Bool
deriving DecidableEq

/-- Insertion of a child row into a list kept ordered by name
(the `.order('name')` clause of the children query). -/
def insertByName (c : Child) : List Child → List Child
  | [] => [c]
  | d :: ds => if d.name < c.name then d :: insertByName c ds else c :: d :: ds

/-- Name-ordered view of a list of child rows. -/
def sortByName (l : List Child) : List Child :=
  l.foldr insertByName []

/-- Execution of the built children query (`src/lib/database.ts` lines
287-305): optional class filter, ordered by name, storage failures wrapped
as a `DatabaseError`. -/
def runChildrenQuery (db : DB) (filter : Option String) : ChildrenOut :=
  if db.storageError then
    ⟨.error (.databaseError "子ども情報の取得に失敗しました"), true⟩
  else
    match filter with
    | some cid => ⟨.ok (sortByName (db.children.filter (fun c => c.classId == cid))), true⟩
    | none => ⟨.ok (sortByName db.children), true⟩

/-- Embeds `getChildren` of `src/lib/database.ts` (lines 272-326):
authentication check, profile lookup (a missing profile is an authentication
error), then class scoping: a truthy explicit `classId` differing from the
caller's truthy `assigned_class` is a `PermissionError` thrown before the
children query runs; otherwise the query is filtered by the explicit class,
by the caller's assigned class, or not at all (administrative default). -/
def getChildren (current : Option CurrentUser) (db : DB) (classId : Option String) :
    ChildrenOut :=
  match current with
  | none => ⟨.error .authenticationError, false⟩
  | some cu =>
    match getUserProfile current db cu.id with
    | .error e => ⟨.error e, false⟩
    | .ok none => ⟨.error .authenticationError, false⟩
    | .ok (some prof) =>
      if strTruthy classId then
        if strTruthy prof.assignedClass && !(prof.assignedClass.getD "" == classId.getD "") then
          ⟨.error .permissionError, false⟩
        else runChildrenQuery db (some (classId.getD ""))
      else if strTruthy prof.assignedClass then
        runChildrenQuery db (some (prof.assignedClass.getD ""))
      else runChildrenQuery db none

/-- Embeds `saveGenerationHistory` of `src/lib/database.ts` (lines 339-404),
in the source's check order: required fields (JavaScript truthiness: empty
strings are missing), generation-type validation, authentication, self-only
permission, then the insert, which stamps fresh timestamps and a
server-generated id. Returns the operation result and the resulting store. -/
def saveGenerationHistory (current : Option CurrentUser) (db : DB)
    (d : GenerationHistoryInsert) (now : Nat) :
    Except DBError GenerationHistoryRow × DB :=
  if d.userId == "" || d.type == "" || d.input == "" || d.output == "" then
    (.error (.databaseError "必須フィールドが不足しています: user_id, type, input, output"), db)
  else if !(validTypes.contains d.type) then
    (.error (.databaseError "無効な生成タイプです。有効な値: email, diary, record"), db)
  else
    match current with
    | none => (.error .authenticationError, db)
    | some cu =>
      if !(cu.id == d.userId) then (.error .permissionError, db)
      else if db.storageError then
        (.error (.databaseError "生成履歴の保存に失敗しました"), db)
      else
        let row : GenerationHistoryRow :=
          ⟨db.nextId, d.userId, d.type, d.input, d.output, now, now⟩
        (.ok row, { db with history := db.history ++ [row], nextId := db.nextId + 1 })

/- ===================== Helper lemmas ===================== -/

/-- Negation of a list-prefix relation, computed through `isPrefixOf`. -/
theorem not_prefix_of_isPrefixOf_eq_false {a b : List Char}
    (h : a.isPrefixOf b = false) : ¬ a <+: b := by
  intro hc
  rw [List.isPrefixOf_iff_prefix.mpr hc] at h
  exact Bool.noConfusion h

/-- Two strings neither of which is a character-list prefix of the other can
never both be prefixes of the same path. -/
theorem strHasPre_excl (a b p : String)
    (hab : a.data.isPrefixOf b.data = false)
    (hba : b.data.isPrefixOf a.data = false)
    (h : strHasPre a p = true) : strHasPre b p = false := by
  cases hb : strHasPre b p with
  | false => rfl
  | true =>
    simp only [strHasPre] at h hb
    have h' := List.isPrefixOf_iff_prefix.mp h
    have hb' := List.isPrefixOf_iff_prefix.mp hb
    rcases List.prefix_or_prefix_of_prefix h' hb' with hc | hc
    · exact absurd hc (not_prefix_of_isPrefixOf_eq_false hab)
    · exact absurd hc (not_prefix_of_isPrefixOf_eq_false hba)

/-- A path that prefix-matches an auth route (`/login`, `/register`) cannot
prefix-match any protected route, since no auth-route prefix is comparable
with a protected prefix. -/
theorem authRoute_not_protected (p : String) (h : isAuthRoute p = true) :
    isProtectedRoute p = false := by
  have h' : strHasPre "/login" p = true ∨ strHasPre "/register" p = true := by
    simpa [isAuthRoute, authRoutes] using h
  rcases h' with h' | h'
  · have h1 := strHasPre_excl "/login" "/dashboard" p (by decide) (by decide) h'
    have h2 := strHasPre_excl "/login" "/email" p (by decide) (by decide) h'
    have h3 := strHasPre_excl "/login" "/diary" p (by decide) (by decide) h'
    have h4 := strHasPre_excl "/login" "/records" p (by decide) (by decide) h'
    simp [isProtectedRoute, protectedRoutes, h1, h2, h3, h4]
  · have h1 := strHasPre_excl "/register" "/dashboard" p (by decide) (by decide) h'
    have h2 := strHasPre_excl "/register" "/email" p (by decide) (by decide) h'
    have h3 := strHasPre_excl "/register" "/diary" p (by decide) (by decide) h'
    have h4 := strHasPre_excl "/register" "/records" p (by decide) (by decide) h'
    simp [isProtectedRoute, protectedRoutes, h1, h2, h3, h4]

/- ===================== Claim theorems ===================== -/

/-- C1: for every non-bypassed request path that prefix-matches a Protected
route, an anonymous caller (session validation yields no session) receives a
redirect to the login route whose `redirect` query parameter equals the
original path, the parameter being omitted exactly when that path is the
root. No cookies are deleted, since the anonymous case is not flagged for
cleanup. -/
theorem middleware_protected_anonymous_redirects_login
    (p : String) (env : SessionEnv)
    (hb : isBypassed p = false)
    (hp : isProtectedRoute p = true)
    (ha : env.remote = .ok none) :
    middleware p env false =
      ⟨some ("/login", if p = "/" then none else some p), false⟩ := by
  have hroot : p ≠ "/" := by
    intro he
    rw [he] at hp
    exact absurd hp (by decide)
  have hemp : p ≠ "" := by
    intro he
    rw [he] at hp
    exact absurd hp (by decide)
  simp [middleware, hb, getSession, ha, hp, createRedirect, strTruthy, hemp, hroot]

/-- Witness for C1: the concrete protected path `/dashboard` with no session
is redirected to login with `redirect=/dashboard`. -/
theorem middleware_protected_anonymous_redirects_login_witness :
    middleware "/dashboard" ⟨.ok none, none, 0⟩ false =
      ⟨some ("/login", some "/dashboard"), false⟩ := by
  have h := middleware_protected_anonymous_redirects_login "/dashboard"
    ⟨.ok none, none, 0⟩ (by decide) (by decide) rfl
  exact h.trans (by decide)

/-- C3: for every non-bypassed request path that prefix-matches an auth route
(`/login`, `/register`), a caller whose session validation yields a session
is redirected to the default authenticated landing page `/dashboard` with no
`redirect` parameter, independently of the specific path. -/
theorem middleware_authroute_valid_redirects_dashboard
    (p : String) (env : SessionEnv) (s : Session)
    (hb : isBypassed p = false)
    (ha : isAuthRoute p = true)
    (hv : (getSession env).session = some s) :
    middleware p env false = ⟨some ("/dashboard", none), false⟩ := by
  have hnp : isProtectedRoute p = false := authRoute_not_protected p ha
  simp [middleware, hb, hv, hnp, ha, createRedirect, strTruthy]

/-- Witness for C3: an authenticated caller requesting the concrete auth
route `/login` is redirected to the dashboard. -/
theorem middleware_authroute_valid_redirects_dashboard_witness :
    middleware "/login" ⟨.ok (some ⟨some ⟨"u1"⟩, some 10000⟩), none, 0⟩ false =
      ⟨some ("/dashboard", none), false⟩ :=
  middleware_authroute_valid_redirects_dashboard "/login"
    ⟨.ok (some ⟨some ⟨"u1"⟩, some 10000⟩), none, 0⟩ ⟨some ⟨"u1"⟩, some 10000⟩
    (by decide) (by decide) (by decide)

/-- C4: an uncaught internal error reaching the middleware's catch block on a
non-bypassed path never propagates: a Protected path fails closed with a
redirect to login carrying the original path as the `redirect` parameter, and
every non-Protected path fails open with a pass-through continuation; the
catch block deletes no cookies in either case. -/
theorem middleware_internal_error_fail_closed_fail_open
    (p : String) (env : SessionEnv)
    (hb : isBypassed p = false) :
    (isProtectedRoute p = true →
      middleware p env true = ⟨some ("/login", some p), false⟩) ∧
    (isProtectedRoute p = false → middleware p env true = ⟨none, false⟩) := by
  constructor
  · intro hp
    have hroot : p ≠ "/" := by
      intro he
      rw [he] at hp
      exact absurd hp (by decide)
    have hemp : p ≠ "" := by
      intro he
      rw [he] at hp
      exact absurd hp (by decide)
    simp [middleware, hb, hp, createRedirect, strTruthy, hemp, hroot]
  · intro hp
    simp [middleware, hb, hp]

/-- Witness for C4: with an internal error, the concrete Protected path
`/records` is redirected to login with its path preserved. -/
theorem middleware_internal_error_fail_closed_fail_open_witness :
    middleware "/records" ⟨.err, none, 0⟩ true =
      ⟨some ("/login", some "/records"), false⟩ :=
  (middleware_internal_error_fail_closed_fail_open "/records"
    ⟨.err, none, 0⟩ (by decide)).1 (by decide)

/-- C5: session validation is idempotent when no refresh is due: for a
resolved session carrying a user whose `expires_at` is not within the
300-second expiration buffer of now, `getSession` issues no refresh call and
returns the session unchanged without a cleanup flag, so an immediately
repeated validation (the environment being unchanged, as no side effect
occurred) yields the same session with the same user id both times and no
refresh side effect on the second call either. -/
theorem getSession_idempotent_no_refresh
    (env : SessionEnv) (s : Session) (u : SUser) (e : Int)
    (hr : env.remote = .ok (some s))
    (he : s.expiresAt = some e)
    (hw : ¬ e < env.now + expirationBuffer)
    (hu : s.user = some u) :
    getSession env = ⟨some s, false, false⟩ ∧
      sessionUserId (getSession env).session = some u.id := by
  have hdue : refreshDue s env.now = false := by
    simp [refreshDue, he, hw]
  have h1 : getSession env = ⟨some s, false, false⟩ := by
    simp [getSession, hr, hdue, hu]
  exact ⟨h1, by simp [h1, sessionUserId, hu]⟩

/-- Witness for C5: a concrete session expiring 10000 seconds from now is
returned unchanged with no refresh attempted and no cleanup. -/
theorem getSession_idempotent_no_refresh_witness :
    getSession ⟨.ok (some ⟨some ⟨"u1"⟩, some 10000⟩), none, 0⟩ =
      ⟨some ⟨some ⟨"u1"⟩, some 10000⟩, false, false⟩ :=
  (getSession_idempotent_no_refresh ⟨.ok (some ⟨some ⟨"u1"⟩, some 10000⟩), none, 0⟩
    ⟨some ⟨"u1"⟩, some 10000⟩ ⟨"u1"⟩ 10000 rfl rfl (by decide) rfl).1

/-- C6 counterexample: the claim includes the `NoSession` outcome among those
that clear the stored tokens, but `getSession` returns `needsCleanup: false`
for a missing session, so the middleware's cleanup branch is skipped: at the
concrete non-Protected path `/login` with no session, the request continues
with no cookie deleted, refuting the claimed unconditional clearing. -/
theorem middleware_nosession_no_clear_cex :
    ¬ ((middleware "/login" ⟨.ok none, none, 0⟩ false).tokensCleared = true ∧
       (middleware "/login" ⟨.ok none, none, 0⟩ false).redirectTo = none) := by
  intro h
  exact Bool.noConfusion h.1

/-- C6 (amended): for every non-bypassed request path that is not Protected,
an invalid session outcome flagged for cleanup (service error, refresh
failure, or corrupt session) makes the middleware delete both token cookies
and continue the request unauthenticated without a redirect; in the
anonymous `NoSession` case the middleware also continues without a redirect
but deletes no cookies. -/
theorem middleware_nonprotected_invalid_cleanup
    (p : String) (env : SessionEnv)
    (hb : isBypassed p = false)
    (hnp : isProtectedRoute p = false) :
    ((getSession env).session = none → (getSession env).needsCleanup = true →
      middleware p env false = ⟨none, true⟩) ∧
    (env.remote = .ok none → middleware p env false = ⟨none, false⟩) := by
  constructor
  · intro hs hc
    simp [middleware, hb, hs, hc, hnp]
  · intro ha
    simp [middleware, hb, getSession, ha, hnp]

/-- Witness for C6 (amended): on the concrete non-Protected path `/login`, a
service error clears the cookies and continues, while a missing session
continues without clearing. -/
theorem middleware_nonprotected_invalid_cleanup_witness :
    middleware "/login" ⟨.err, none, 0⟩ false = ⟨none, true⟩ ∧
    middleware "/login" ⟨.ok none, none, 0⟩ false = ⟨none, false⟩ :=
  ⟨(middleware_nonprotected_invalid_cleanup "/login" ⟨.err, none, 0⟩
      (by decide) (by decide)).1 rfl rfl,
   (middleware_nonprotected_invalid_cleanup "/login" ⟨.ok none, none, 0⟩
      (by decide) (by decide)).2 rfl⟩

/-- C2 counterexample: when the remote sign-out call returns an error, the
source's `signOut` returns the mapped error before reaching the code that
clears local state and cookies, so a signed-in state survives: at this
concrete state and error, neither user, session nor either cookie is
cleared, refuting the claim that clearing is unconditional. -/
theorem signOut_unconditional_clear_cex :
    ¬ ((signOut ⟨some "u1", some "s1", some "at", some "rt", false⟩
          (some ⟨"network failure", none⟩)).1.user = none ∧
        (signOut ⟨some "u1", some "s1", some "at", some "rt", false⟩
          (some ⟨"network failure", none⟩)).1.session = none ∧
        (signOut ⟨some "u1", some "s1", some "at", some "rt", false⟩
          (some ⟨"network failure", none⟩)).1.accessCookie = none ∧
        (signOut ⟨some "u1", some "s1", some "at", some "rt", false⟩
          (some ⟨"network failure", none⟩)).1.refreshCookie = none) := by
  intro h
  exact Option.noConfusion h.1

/-- C2 (amended): `signOut` clears the in-process state (user and session set
to null) and both token cookies exactly in the executions where the remote
sign-out call succeeds; when the remote call returns an error or throws, it
returns the mapped error and leaves user, session and both cookies unchanged,
only resetting the loading flag. -/
theorem signOut_clears_state_iff_remote_ok (st : ClientAuthState) (e : RemoteErr) :
    (signOut st none).1 = ⟨none, none, none, none, false⟩ ∧
    (signOut st (some e)).1 = { st with loading := false } := by
  exact ⟨rfl, rfl⟩

/-- C7: an authenticated caller whose stored profile has a non-empty
`assigned_class` and who calls `getChildren` with an explicit class id
different from that assigned class gets a `PermissionError` — not an empty
result, not a silent substitution — and no query against the children store
is executed. -/
theorem getChildren_cross_class_permission
    (cu : CurrentUser) (db : DB) (prof : DBUser) (cid ac : String)
    (hid : cu.id ≠ "")
    (hs : db.storageError = false)
    (hfind : db.users.find? (fun u => u.id == cu.id) = some prof)
    (hac : prof.assignedClass = some ac)
    (hane : ac ≠ "")
    (hcid : cid ≠ "")
    (hne : ac ≠ cid) :
    getChildren (some cu) db (some cid) = ⟨.error .permissionError, false⟩ := by
  simp [getChildren, getUserProfile, hid, hs, hfind, strTruthy, hac, hane, hcid, hne]

/-- Witness for C7: a caller assigned to `koala` asking for class `bear`
receives a `PermissionError` with no children read issued. -/
theorem getChildren_cross_class_permission_witness :
    getChildren (some ⟨"u1"⟩)
      ⟨[⟨"u1", "Taro", some "koala", 0⟩], [⟨"c1", "Ken", "koala"⟩], [], 0, false⟩
      (some "bear") = ⟨.error .permissionError, false⟩ :=
  getChildren_cross_class_permission ⟨"u1"⟩
    ⟨[⟨"u1", "Taro", some "koala", 0⟩], [⟨"c1", "Ken", "koala"⟩], [], 0, false⟩
    ⟨"u1", "Taro", some "koala", 0⟩ "bear" "koala"
    (by decide) rfl (by decide) rfl (by decide) (by decide) (by decide)

/-- C8: for every record whose `type` is outside {email, diary, record},
`saveGenerationHistory` fails with a validation `DatabaseError` raised before
the insert, for every caller and store state, and the backing store is left
unchanged — no partial record is created. -/
theorem saveGenerationHistory_invalid_type
    (current : Option CurrentUser) (db : DB) (d : GenerationHistoryInsert) (now : Nat)
    (ht : validTypes.contains d.type = false) :
    (∃ m, (saveGenerationHistory current db d now).1 = .error (.databaseError m)) ∧
    (saveGenerationHistory current db d now).2 = db := by
  have ht2 : ¬ d.type ∈ validTypes := by simpa using ht
  by_cases h1 : (d.userId == "" || d.type == "" || d.input == "" || d.output == "") = true
  · constructor
    · exact ⟨"必須フィールドが不足しています: user_id, type, input, output",
        by simp [saveGenerationHistory, h1]⟩
    · simp [saveGenerationHistory, h1]
  · constructor
    · exact ⟨"無効な生成タイプです。有効な値: email, diary, record",
        by simp [saveGenerationHistory, h1, ht2]⟩
    · simp [saveGenerationHistory, h1, ht2]

/-- Witness for C8: saving a record with `type = "invalid-type"` yields a
validation `DatabaseError` and leaves the store unchanged. -/
theorem saveGenerationHistory_invalid_type_witness :
    (∃ m, (saveGenerationHistory (some ⟨"u1"⟩) ⟨[], [], [], 0, false⟩
      ⟨"u1", "invalid-type", "in", "out"⟩ 0).1 = .error (.databaseError m)) ∧
    (saveGenerationHistory (some ⟨"u1"⟩) ⟨[], [], [], 0, false⟩
      ⟨"u1", "invalid-type", "in", "out"⟩ 0).2 = ⟨[], [], [], 0, false⟩ :=
  saveGenerationHistory_invalid_type (some ⟨"u1"⟩) ⟨[], [], [], 0, false⟩
    ⟨"u1", "invalid-type", "in", "out"⟩ 0 (by decide)

/-- C9: `updateUserProfile` is self-only: for every otherwise-valid non-empty
patch against an existing row in a healthy store, the call performs the write
and returns the updated user when the caller's id equals the target id, and
fails with a `PermissionError` leaving the store untouched when the ids
differ. -/
theorem updateUserProfile_self_only
    (cu : CurrentUser) (db : DB) (userId : String) (updates : UserProfileUpdate)
    (now : Nat) (row : DBUser)
    (hid : userId ≠ "")
    (hne : updates.isEmptyPatch = false)
    (hvc : patchClassInvalid updates = false)
    (hs : db.storageError = false)
    (hrow : db.users.find? (fun u => u.id == userId) = some row) :
    (cu.id = userId →
      updateUserProfile (some cu) db userId updates now =
        (.ok (applyUserUpdates row updates now),
         { db with users := db.users.map (fun r =>
             if r.id == userId then applyUserUpdates row updates now else r) })) ∧
    (cu.id ≠ userId →
      updateUserProfile (some cu) db userId updates now =
        (.error .permissionError, db)) := by
  constructor
  · intro hown
    simp [updateUserProfile, hid, hne, hown, hvc, hs, hrow]
  · intro hdiff
    simp [updateUserProfile, hid, hne, hdiff, hvc]

/-- Witness for C9: with the patch `{assigned_class: "koala"}`, the owning
caller's update succeeds and writes the row, while a different caller gets a
`PermissionError` and the store is unchanged. -/
theorem updateUserProfile_self_only_witness :
    updateUserProfile (some ⟨"u1"⟩) ⟨[⟨"u1", "Taro", none, 0⟩], [], [], 0, false⟩
      "u1" ⟨none, some "koala"⟩ 5 =
      (.ok ⟨"u1", "Taro", some "koala", 5⟩,
       ⟨[⟨"u1", "Taro", some "koala", 5⟩], [], [], 0, false⟩) ∧
    updateUserProfile (some ⟨"u2"⟩) ⟨[⟨"u1", "Taro", none, 0⟩], [], [], 0, false⟩
      "u1" ⟨none, some "koala"⟩ 5 =
      (.error .permissionError, ⟨[⟨"u1", "Taro", none, 0⟩], [], [], 0, false⟩) := by
  constructor
  · have h := (updateUserProfile_self_only ⟨"u1"⟩
      ⟨[⟨"u1", "Taro", none, 0⟩], [], [], 0, false⟩ "u1" ⟨none, some "koala"⟩ 5
      ⟨"u1", "Taro", none, 0⟩ (by decide) rfl rfl rfl rfl).1 rfl
    exact h.trans (by decide)
  · exact (updateUserProfile_self_only ⟨"u2"⟩
      ⟨[⟨"u1", "Taro", none, 0⟩], [], [], 0, false⟩ "u1" ⟨none, some "koala"⟩ 5
      ⟨"u1", "Taro", none, 0⟩ (by decide) rfl rfl rfl rfl).2 (by decide)

/-- C10: for every authenticated caller and non-empty id for which the users
table holds no matching row, `getUserProfile` returns the ordinary absent
result `none` rather than raising an error. -/
theorem getUserProfile_missing_row_null
    (cu : CurrentUser) (db : DB) (userId : String)
    (hid : userId ≠ "")
    (hs : db.storageError = false)
    (hfind : db.users.find? (fun u => u.id == userId) = none) :
    getUserProfile (some cu) db userId = .ok none := by
  simp [getUserProfile, hid, hs, hfind]

/-- Witness for C10: looking up the absent id `u9` in a store holding only
`u1` returns `none` without an error. -/
theorem getUserProfile_missing_row_null_witness :
    getUserProfile (some ⟨"u1"⟩) ⟨[⟨"u1", "Taro", none, 0⟩], [], [], 0, false⟩ "u9" =
      .ok none :=
  getUserProfile_missing_row_null ⟨"u1"⟩
    ⟨[⟨"u1", "Taro", none, 0⟩], [], [], 0, false⟩ "u9"
    (by decide) rfl (by decide)
